import Mathlib

/-!
Verification of `openai-server.py`, a FastAPI example server that relays an
OpenAI chat-completion stream to a client as Server-Sent Events (SSE).

The development shallowly embeds the server's own logic:

* the startup credential validation (module level, lines 41-61);
* the masking helper `mask_api_key` (lines 64-68);
* the model-selection expression of `chat_endpoint` (line 109);
* the SSE generator `generate_stream` (lines 115-155);
* the endpoint wrapper `chat_endpoint` (lines 95-170) and `health_check`
  (lines 173-176).

External collaborators (the OpenAI client, the `tanstack_ai` converter
library, pydantic and FastAPI) are modelled as parameters: the upstream
stream is the sequence of events one call delivers together with the way it
ends (normal exhaustion or an exception), and the converter is a pair of
functions `convert_event` / `convert_error`.  Python exceptions are modelled
with `Except`; Python strings are modelled by Lean strings, with slicing and
length on the list of code points, matching Python semantics.
-/

namespace OpenAIServer

/-- Python's `str.startswith`, as a code-point prefix test. -/
def startswith (s p : String) : Bool :=
  p.data.isPrefixOf s.data

/-- The message of the `ValueError` raised when `OPENAI_API_KEY` is unset or
empty (lines 42-46; Python concatenates the two adjacent string literals). -/
def missingKeyMsg : String :=
  "OPENAI_API_KEY environment variable is required. Please set it in your .env file or environment."

/-- The message of the `ValueError` raised when the key is a 1Password
reference (lines 49-54). -/
def opReferenceMsg : String :=
  "⚠️  ERROR: API key appears to be a 1Password reference (op://...).\nYou need to use the actual API key value, not the 1Password reference.\nPlease copy the actual key from 1Password (starts with 'sk-') and update your .env file."

/-- Module-level credential validation, lines 41-54.  `os.getenv` returns
`None` when the variable is unset, modelled by `Option String`; both `None`
and the empty string are falsy in Python, so `if not OPENAI_API_KEY` raises
for either.  An `Except.error` is the uncaught `ValueError`: it aborts the
module import, before `uvicorn.run` at the bottom of the file ever binds the
server.  The two plausibility checks on lines 56-61 only `print` warnings and
do not affect the result, so they are not part of the returned value. -/
def validateApiKey : Option String → Except String String
  | none => Except.error missingKeyMsg
  | some k =>
    if k = "" then Except.error missingKeyMsg
    else if startswith k "op://" then Except.error opReferenceMsg
    else Except.ok k

/-- `mask_api_key` (lines 64-68): keys of length at most 11 become all
asterisks; longer keys show the first 7 and last 4 code points around a
literal `...`.  Python `len`, `key[:7]` and `key[-4:]` act on code points,
modelled via `String.data`. -/
def mask_api_key (key : String) : String :=
  if key.data.length ≤ 11 then
    String.mk (List.replicate key.data.length '*')
  else
    String.mk (key.data.take 7) ++ "..." ++ String.mk (key.data.drop (key.data.length - 4))

/-- Python `dict.get` on the options mapping, whose entries we model as an
association list of strings (first binding wins, as in a dict there is at
most one). -/
def pyGet (d : List (String × String)) (k : String) : Option String :=
  (d.find? fun p => p.1 == k).map Prod.snd

/-- The model-selection expression on line 109:
`request.data.get("model") if request.data and request.data.get("model") else "gpt-4o"`.
Python truthiness: `request.data` is falsy when `None` or an empty dict, and
`request.data.get("model")` is falsy when the key is absent or its value is
an empty string. -/
def selectModel (data : Option (List (String × String))) : String :=
  match data with
  | none => "gpt-4o"
  | some d =>
    if d.isEmpty then "gpt-4o"
    else
      match pyGet d "model" with
      | none => "gpt-4o"
      | some v => if v = "" then "gpt-4o" else v

/-- The spec's amended reading of line 109: the model is the value of the
`model` key when that value is present and truthy (non-empty), and the
hardcoded default `gpt-4o` otherwise. -/
def modelSpec (data : Option (List (String × String))) : String :=
  match data.bind fun d => pyGet d "model" with
  | none => "gpt-4o"
  | some v => if v = "" then "gpt-4o" else v

/-- C4: if the credential environment variable is unset or is the empty
string, the module-level validation raises the missing-key `ValueError`
(an `Except.error`), so the process aborts before `uvicorn.run` ever serves
traffic. -/
theorem validateApiKey_missing_fatal :
    validateApiKey none = Except.error missingKeyMsg ∧
    validateApiKey (some "") = Except.error missingKeyMsg := by
  constructor <;> rfl

/-- C5: a credential that starts with `op://` is rejected at startup with the
1Password-reference `ValueError`, whose message differs from the missing-key
message. -/
theorem validateApiKey_op_reference_fatal (k : String)
    (h : startswith k "op://" = true) :
    validateApiKey (some k) = Except.error opReferenceMsg ∧
    opReferenceMsg ≠ missingKeyMsg := by
  have hk : k ≠ "" := by
    intro hk
    rw [hk] at h
    exact absurd h (by decide)
  refine ⟨?_, by decide⟩
  simp [validateApiKey, hk, h]

theorem validateApiKey_op_reference_fatal_witness :
    startswith "op://vault/item/key" "op://" = true ∧
    (validateApiKey (some "op://vault/item/key") = Except.error opReferenceMsg ∧
      opReferenceMsg ≠ missingKeyMsg) :=
  ⟨by decide, validateApiKey_op_reference_fatal "op://vault/item/key" (by decide)⟩

/-- C6 counterexample: the claim says the masking function's output never
equals the input for a non-empty input, but `mask_api_key` maps the
non-empty key `"*"` (length 1, so the all-asterisk branch) to itself. -/
theorem mask_api_key_identity_counterexample :
    ("*" : String) ≠ "" ∧ mask_api_key "*" = "*" := by
  constructor
  · decide
  · rfl

/-- C6 (amended): for every credential of length at least 12, the mask is the
first 7 code points, then the three characters of the literal ellipsis, then
the last 4 code points — 14 characters in total, so every remaining character
of the credential is replaced and at most 11 of its characters are visible.
Shorter credentials are fully masked (see the C10 theorem); the output can
coincide with the input exactly when the masked positions already held the
masking characters. -/
theorem mask_api_key_long_shape (key : String) (h : 12 ≤ key.data.length) :
    (mask_api_key key).data =
      key.data.take 7 ++ "...".data ++ key.data.drop (key.data.length - 4) ∧
    (mask_api_key key).data.length = 14 := by
  have hn : ¬ key.data.length ≤ 11 := by omega
  have hdata : (mask_api_key key).data =
      key.data.take 7 ++ "...".data ++ key.data.drop (key.data.length - 4) := by
    unfold mask_api_key
    rw [if_neg hn, String.data_append, String.data_append]
  refine ⟨hdata, ?_⟩
  rw [hdata, List.length_append, List.length_append, List.length_take, List.length_drop]
  have hdots : ("..." : String).data.length = 3 := rfl
  rw [hdots]
  omega

theorem mask_api_key_long_shape_witness :
    12 ≤ ("sk-proj-abcdefgh1234" : String).data.length ∧
    ((mask_api_key "sk-proj-abcdefgh1234").data =
        ("sk-proj-abcdefgh1234" : String).data.take 7 ++ "...".data ++
          ("sk-proj-abcdefgh1234" : String).data.drop
            (("sk-proj-abcdefgh1234" : String).data.length - 4) ∧
      (mask_api_key "sk-proj-abcdefgh1234").data.length = 14) :=
  ⟨by decide, mask_api_key_long_shape "sk-proj-abcdefgh1234" (by decide)⟩

/-- C10: a credential of length at most 11 is masked to asterisks only, one
per code point of the input, so none of its characters is revealed. -/
theorem mask_api_key_short_all_masked (key : String) (h : key.data.length ≤ 11) :
    mask_api_key key = String.mk (List.replicate key.data.length '*') ∧
    (∀ c ∈ (mask_api_key key).data, c = '*') ∧
    (mask_api_key key).data.length = key.data.length := by
  have hmask : mask_api_key key = String.mk (List.replicate key.data.length '*') := by
    unfold mask_api_key
    rw [if_pos h]
  refine ⟨hmask, ?_, ?_⟩
  · rw [hmask]
    intro c hc
    exact List.eq_of_mem_replicate hc
  · rw [hmask]
    simp

theorem mask_api_key_short_all_masked_witness :
    ("sk-short" : String).data.length ≤ 11 ∧
    (mask_api_key "sk-short" = String.mk (List.replicate ("sk-short" : String).data.length '*') ∧
      (∀ c ∈ (mask_api_key "sk-short").data, c = '*') ∧
      (mask_api_key "sk-short").data.length = ("sk-short" : String).data.length) :=
  ⟨by decide, mask_api_key_short_all_masked "sk-short" (by decide)⟩

/-- C7 counterexample: the claim says the model passed upstream equals the
value of the `model` key whenever the options mapping contains that key, but
for the mapping with `model` bound to the empty string the code falls back to
the default `gpt-4o` (the empty string is falsy in Python), so the selected
model differs from the key's value. -/
theorem selectModel_falsy_value_counterexample :
    pyGet [("model", "")] "model" = some "" ∧
    selectModel (some [("model", "")]) = "gpt-4o" ∧
    ("gpt-4o" : String) ≠ "" := by
  refine ⟨rfl, rfl, by decide⟩

/-- C7 (amended): the model identifier passed to the upstream call equals the
value of the `model` key of the options mapping when that mapping is present
and contains the key with a truthy (non-empty) value, and the hardcoded
default `gpt-4o` when the mapping is absent, lacks the key, or maps it to an
empty string. -/
theorem selectModel_eq_modelSpec (data : Option (List (String × String))) :
    selectModel data = modelSpec data := by
  match data with
  | none => rfl
  | some d =>
    match hd : d with
    | [] => rfl
    | p :: rest =>
      simp [selectModel, modelSpec]

/-- One SSE frame of the response body: `format_sse_chunk` wraps a converter
chunk and `format_sse_done` is the terminal marker.  The wire encoding of the
`tanstack_ai` helpers is opaque to this file; what matters is which chunk (or
the done marker) each emitted frame carries. -/
inductive SSEFrame (Chunk : Type) where
  | chunk : Chunk → SSEFrame Chunk
  | done : SSEFrame Chunk
deriving DecidableEq, Repr

/-- `format_sse_chunk` from `tanstack_ai`: one frame per chunk. -/
def format_sse_chunk {Chunk : Type} (c : Chunk) : SSEFrame Chunk :=
  SSEFrame.chunk c

/-- `format_sse_done` from `tanstack_ai`: the terminal marker frame. -/
def format_sse_done {Chunk : Type} : SSEFrame Chunk :=
  SSEFrame.done

/-- The observable behaviour of one upstream streaming call, as
`generate_stream` interacts with it: `Except.error e` models
`await client.chat.completions.create` raising `e`; `Except.ok (events, none)`
models a stream that yields `events` and then exhausts normally;
`Except.ok (events, some e)` models a stream that yields `events` and then
raises `e` on the next iteration step. -/
abbrev UpstreamRun (Event Err : Type) :=
  Except Err (List Event × Option Err)

section StreamRelay

variable {Event Chunk Err : Type}

/-- The `async for` loop of `generate_stream` (lines 132-149) together with
the `except` handler (lines 151-155): for each event, `converter.convert_event`
either raises — control jumps to the handler, which yields the single frame
`format_sse_chunk (convert_error e)` — or returns chunks, each yielded as one
frame in order; when the events are exhausted the stream either raises
(handler again) or finishes and the loop yields `format_sse_done`. -/
def relayLoop (convert_event : Event → Except Err (List Chunk))
    (convert_error : Err → Chunk) :
    List Event → Option Err → List (SSEFrame Chunk)
  | [], none => [format_sse_done]
  | [], some e => [format_sse_chunk (convert_error e)]
  | ev :: evs, tail =>
    match convert_event ev with
    | Except.error e => [format_sse_chunk (convert_error e)]
    | Except.ok chunks =>
      chunks.map format_sse_chunk ++ relayLoop convert_event convert_error evs tail

/-- `generate_stream` (lines 115-155) as the list of frames it yields: if
opening the call raises, the handler yields the single error frame; otherwise
the loop relays the events (`event_count`, `chunk_count` and the log calls on
the way are side effects with no influence on the yielded frames). -/
def generate_stream (upstream : UpstreamRun Event Err)
    (convert_event : Event → Except Err (List Chunk))
    (convert_error : Err → Chunk) : List (SSEFrame Chunk) :=
  match upstream with
  | Except.error e => [format_sse_chunk (convert_error e)]
  | Except.ok (events, tail) => relayLoop convert_event convert_error events tail

/-- Observation of an upstream run through a converter: the chunks produced
by the events that convert successfully before the first exception, paired
with that first exception (from iteration or conversion) if there is one. -/
def processEvents (convert_event : Event → Except Err (List Chunk)) :
    List Event → Option Err → List Chunk × Option Err
  | [], t => ([], t)
  | ev :: evs, t =>
    match convert_event ev with
    | Except.error e => ([], some e)
    | Except.ok chunks =>
      let rest := processEvents convert_event evs t
      (chunks ++ rest.1, rest.2)

/-- `processEvents` lifted to a whole run, covering a failure of the opening
call itself (no chunks, the opening exception). -/
def runUpstream (upstream : UpstreamRun Event Err)
    (convert_event : Event → Except Err (List Chunk)) :
    List Chunk × Option Err :=
  match upstream with
  | Except.error e => ([], some e)
  | Except.ok (events, tail) => processEvents convert_event events tail

theorem relayLoop_eq_processEvents (convert_event : Event → Except Err (List Chunk))
    (convert_error : Err → Chunk) (events : List Event) (tail : Option Err) :
    relayLoop convert_event convert_error events tail =
      (processEvents convert_event events tail).1.map SSEFrame.chunk ++
        [match (processEvents convert_event events tail).2 with
         | none => SSEFrame.done
         | some e => SSEFrame.chunk (convert_error e)] := by
  induction events with
  | nil => cases tail <;> rfl
  | cons ev evs ih =>
    cases hce : convert_event ev with
    | error e =>
      simp [relayLoop, processEvents, hce, format_sse_chunk]
    | ok chunks =>
      simp [relayLoop, processEvents, hce, format_sse_chunk, ih]

theorem generate_stream_eq_runUpstream (upstream : UpstreamRun Event Err)
    (convert_event : Event → Except Err (List Chunk))
    (convert_error : Err → Chunk) :
    generate_stream upstream convert_event convert_error =
      (runUpstream upstream convert_event).1.map SSEFrame.chunk ++
        [match (runUpstream upstream convert_event).2 with
         | none => SSEFrame.done
         | some e => SSEFrame.chunk (convert_error e)] := by
  cases upstream with
  | error e => rfl
  | ok p =>
    cases p with
    | mk events tail =>
      simpa [generate_stream, runUpstream] using
        relayLoop_eq_processEvents convert_event convert_error events tail

/-- C1: when the upstream stream yields its events and exhausts normally and
every conversion succeeds, the generator yields exactly the data frames of
each event's chunks — events in arrival order, each event's chunks in the
converter's order — followed by exactly one terminal done frame, hence
`sum k_i + 1` frames in total. -/
theorem generate_stream_success_shape (events : List Event)
    (conv : Event → List Chunk) (convert_error : Err → Chunk) :
    generate_stream (Except.ok (events, none))
        (fun ev => Except.ok (conv ev)) convert_error =
      ((events.map conv).flatten).map SSEFrame.chunk ++ [SSEFrame.done] ∧
    (generate_stream (Except.ok (events, none))
        (fun ev => Except.ok (conv ev)) convert_error).length =
      (events.map fun ev => (conv ev).length).sum + 1 := by
  have hflat : ∀ evs : List Event,
      processEvents (fun ev => Except.ok (conv ev)) evs (none : Option Err) =
        ((evs.map conv).flatten, none) := by
    intro evs
    induction evs with
    | nil => rfl
    | cons ev rest ih => simp [processEvents, ih]
  have hshape := generate_stream_eq_runUpstream
    (Except.ok (events, none)) (fun ev => Except.ok (conv ev)) convert_error
  rw [runUpstream, hflat] at hshape
  refine ⟨hshape, ?_⟩
  rw [hshape]
  simp [List.length_flatten]
  congr 1
  congr 1
  funext ev
  simp

/-- C2: when the run fails — the opening call raises with no event delivered,
the stream raises after some events, or a conversion raises — the generator
yields exactly the data frames of the chunks produced before the failure,
followed by exactly one error frame carrying `convert_error` of the
exception, and the terminal done frame is never yielded. -/
theorem generate_stream_failure_shape (upstream : UpstreamRun Event Err)
    (convert_event : Event → Except Err (List Chunk))
    (convert_error : Err → Chunk) (e : Err)
    (hfail : (runUpstream upstream convert_event).2 = some e) :
    generate_stream upstream convert_event convert_error =
      (runUpstream upstream convert_event).1.map SSEFrame.chunk ++
        [SSEFrame.chunk (convert_error e)] ∧
    SSEFrame.done ∉ generate_stream upstream convert_event convert_error := by
  have hshape := generate_stream_eq_runUpstream upstream convert_event convert_error
  rw [hfail] at hshape
  refine ⟨hshape, ?_⟩
  rw [hshape]
  intro hmem
  rcases List.mem_append.mp hmem with hdata | hterm
  · rcases List.mem_map.mp hdata with ⟨c, _, hc⟩
    exact SSEFrame.noConfusion hc
  · rcases List.mem_singleton.mp hterm with h
    exact SSEFrame.noConfusion h

theorem generate_stream_failure_shape_witness :
    (runUpstream (Except.ok ([0, 1, 2], none))
        (fun ev => if ev = 2 then Except.error 9 else Except.ok [2 * ev, 2 * ev + 1])).2 =
      some 9 ∧
    (generate_stream (Except.ok ([0, 1, 2], none))
        (fun ev => if ev = 2 then Except.error 9 else Except.ok [2 * ev, 2 * ev + 1])
        (fun e => e + 100) =
      (runUpstream (Except.ok ([0, 1, 2], none))
          (fun ev => if ev = 2 then Except.error 9 else Except.ok [2 * ev, 2 * ev + 1])).1.map
            SSEFrame.chunk ++ [SSEFrame.chunk (9 + 100)] ∧
      SSEFrame.done ∉
        generate_stream (Except.ok ([0, 1, 2], none))
          (fun ev => if ev = 2 then Except.error 9 else Except.ok [2 * ev, 2 * ev + 1])
          (fun e => e + 100)) :=
  ⟨by decide,
    generate_stream_failure_shape (Except.ok ([0, 1, 2], none))
      (fun ev => if ev = 2 then Except.error 9 else Except.ok [2 * ev, 2 * ev + 1])
      (fun e => e + 100) 9 (by decide)⟩

end StreamRelay

/-- The pydantic `Message` model (lines 82-87).  `toolCalls` entries are
opaque structured records (`Dict[str, Any]` in the source), modelled as
association lists; the endpoint never inspects them. -/
structure Message where
  role : String
  content : Option String := none
  name : Option String := none
  toolCalls : Option (List (List (String × String))) := none
  toolCallId : Option String := none
deriving DecidableEq, Repr

/-- The pydantic `ChatRequest` model (lines 90-92): an ordered message list
and an optional open-ended options mapping.  The source declares no
constraint on the list, so an empty `messages` is a valid `ChatRequest`. -/
structure ChatRequest where
  messages : List Message
  data : Option (List (String × String)) := none
deriving DecidableEq, Repr

/-- FastAPI's `HTTPException` as raised on line 170: a status code and a
textual detail. -/
structure HTTPException where
  status_code : Nat
  detail : String
deriving DecidableEq, Repr

/-- The `StreamingResponse` built on lines 158-166, with its body as the list
of frames the generator yields. -/
structure StreamingResponse (Chunk : Type) where
  body : List (SSEFrame Chunk)
  media_type : String
  headers : List (String × String)
deriving DecidableEq, Repr

section Endpoint

variable {Event Chunk Err PMsg Conv : Type}

/-- `chat_endpoint` (lines 95-170).  The external collaborators are
parameters: `str` is Python `str(e)`; `format_messages_for_openai` and the
`StreamChunkConverter` constructor may raise — both calls sit inside the
endpoint's `try`, so their exceptions become an `HTTPException` with status
500 and detail `str(e)`.  The upstream call `client.chat.completions.create`
(`create model messages`, fixed `max_tokens`/`temperature` folded into it) is
only made inside the generator, after the `StreamingResponse` has been
returned, so its failures never reach the endpoint's handler; they are
handled inside `generate_stream`. -/
def chat_endpoint
    (str : Err → String)
    (format_messages_for_openai : List Message → Except Err (List PMsg))
    (mkStreamChunkConverter : String → Except Err Conv)
    (create : String → List PMsg → UpstreamRun Event Err)
    (convert_event : Conv → Event → Except Err (List Chunk))
    (convert_error : Conv → Err → Chunk)
    (request : ChatRequest) : Except HTTPException (StreamingResponse Chunk) :=
  match format_messages_for_openai request.messages with
  | Except.error e => Except.error ⟨500, str e⟩
  | Except.ok openai_messages =>
    match mkStreamChunkConverter (selectModel request.data) with
    | Except.error e => Except.error ⟨500, str e⟩
    | Except.ok converter =>
      Except.ok
        { body := generate_stream (create (selectModel request.data) openai_messages)
            (convert_event converter) (convert_error converter)
        , media_type := "text/event-stream"
        , headers :=
            [("Cache-Control", "no-cache"), ("Connection", "keep-alive"),
              ("X-Accel-Buffering", "no")] }

/-- C3: if any exception is raised before the streaming response is returned
— message adaptation or converter construction throwing — the endpoint
answers with an `HTTPException` of status 500 whose detail is the textual
message of that exception, instead of propagating it or starting a stream. -/
theorem chat_endpoint_pre_stream_500
    (str : Err → String)
    (format_messages_for_openai : List Message → Except Err (List PMsg))
    (mkStreamChunkConverter : String → Except Err Conv)
    (create : String → List PMsg → UpstreamRun Event Err)
    (convert_event : Conv → Event → Except Err (List Chunk))
    (convert_error : Conv → Err → Chunk)
    (request : ChatRequest) (m : String)
    (h : (∃ e, format_messages_for_openai request.messages = Except.error e ∧ str e = m) ∨
      (∃ pm e, format_messages_for_openai request.messages = Except.ok pm ∧
        mkStreamChunkConverter (selectModel request.data) = Except.error e ∧ str e = m)) :
    chat_endpoint str format_messages_for_openai mkStreamChunkConverter create
        convert_event convert_error request =
      Except.error ⟨500, m⟩ := by
  rcases h with ⟨e, hfmt, hm⟩ | ⟨pm, e, hfmt, hconv, hm⟩
  · subst hm
    unfold chat_endpoint
    rw [hfmt]
  · subst hm
    unfold chat_endpoint
    rw [hfmt, hconv]

theorem chat_endpoint_pre_stream_500_witness :
    @chat_endpoint Unit Unit String Unit Unit id (fun _ => Except.error "adapter failed")
        (fun _ => Except.ok ()) (fun _ _ => Except.ok ([], none))
        (fun _ _ => Except.ok []) (fun _ _ => ()) { messages := [] } =
      Except.error ⟨500, "adapter failed"⟩ :=
  chat_endpoint_pre_stream_500 id (fun _ => Except.error "adapter failed")
    (fun _ => Except.ok ()) (fun _ _ => Except.ok ([], none))
    (fun _ _ => Except.ok []) (fun _ _ => ()) { messages := [] } "adapter failed"
    (Or.inl ⟨"adapter failed", rfl, rfl⟩)

/-- C9: a request whose `messages` field is the empty sequence is a valid
`ChatRequest` (the source's pydantic model puts no lower bound on the list),
and the endpoint processes it like any other request: provided the external
adapter and converter constructor do not themselves raise, it returns the
streaming response — not a client error — and the response body consists of
zero or more data frames followed by exactly one terminal frame (the done
marker, or an error frame if the provider-defined stream for the empty
context fails). -/
theorem chat_endpoint_empty_messages_accepted
    (str : Err → String)
    (format_messages_for_openai : List Message → Except Err (List PMsg))
    (mkStreamChunkConverter : String → Except Err Conv)
    (create : String → List PMsg → UpstreamRun Event Err)
    (convert_event : Conv → Event → Except Err (List Chunk))
    (convert_error : Conv → Err → Chunk)
    (data : Option (List (String × String)))
    (pm : List PMsg) (conv : Conv)
    (hfmt : format_messages_for_openai [] = Except.ok pm)
    (hconv : mkStreamChunkConverter (selectModel data) = Except.ok conv) :
    ∃ (chunks : List Chunk) (tail : SSEFrame Chunk),
      chat_endpoint str format_messages_for_openai mkStreamChunkConverter create
          convert_event convert_error { messages := [], data := data } =
        Except.ok
          { body := chunks.map SSEFrame.chunk ++ [tail]
          , media_type := "text/event-stream"
          , headers :=
              [("Cache-Control", "no-cache"), ("Connection", "keep-alive"),
                ("X-Accel-Buffering", "no")] } ∧
      (tail = SSEFrame.done ∨ ∃ e, tail = SSEFrame.chunk (convert_error conv e)) := by
  refine ⟨(runUpstream (create (selectModel data) pm) (convert_event conv)).1,
    match (runUpstream (create (selectModel data) pm) (convert_event conv)).2 with
    | none => SSEFrame.done
    | some e => SSEFrame.chunk (convert_error conv e), ?_, ?_⟩
  · unfold chat_endpoint
    rw [hfmt, hconv]
    exact congrArg
      (fun b : List (SSEFrame Chunk) =>
        (Except.ok
          { body := b
          , media_type := "text/event-stream"
          , headers :=
              [("Cache-Control", "no-cache"), ("Connection", "keep-alive"),
                ("X-Accel-Buffering", "no")] } :
          Except HTTPException (StreamingResponse Chunk)))
      (generate_stream_eq_runUpstream (create (selectModel data) pm)
        (convert_event conv) (convert_error conv))
  · cases hrun : (runUpstream (create (selectModel data) pm) (convert_event conv)).2 with
    | none => exact Or.inl rfl
    | some e => exact Or.inr ⟨e, rfl⟩

theorem chat_endpoint_empty_messages_accepted_witness :
    ∃ (chunks : List Nat) (tail : SSEFrame Nat),
      @chat_endpoint Nat Nat Nat Nat Unit (fun e => toString e) (fun _ => Except.ok [])
          (fun _ => Except.ok ()) (fun _ _ => Except.ok ([], none))
          (fun _ ev => Except.ok [ev]) (fun _ e => e) { messages := [], data := none } =
        Except.ok
          { body := chunks.map SSEFrame.chunk ++ [tail]
          , media_type := "text/event-stream"
          , headers :=
              [("Cache-Control", "no-cache"), ("Connection", "keep-alive"),
                ("X-Accel-Buffering", "no")] } ∧
      (tail = SSEFrame.done ∨ ∃ e, tail = SSEFrame.chunk e) :=
  chat_endpoint_empty_messages_accepted (fun e => toString e) (fun _ => Except.ok [])
    (fun _ => Except.ok ()) (fun _ _ => Except.ok ([], none))
    (fun _ ev => Except.ok [ev]) (fun _ e => e) none [] () rfl rfl

end Endpoint

/-- The body returned by `health_check` (lines 173-176). -/
structure HealthResponse where
  status : String
  service : String
deriving DecidableEq, Repr

/-- `health_check` (lines 173-176): a constant handler — it reads no request
data, no upstream state and no mutable state, so every invocation returns
the same body. -/
def health_check : HealthResponse :=
  { status := "ok", service := "tanstack-ai-fastapi-openai" }

/-- Modelled from the spec: the HTTP status of `GET /health`.  The route
decorator on line 173 sets no `status_code`, and the framework (FastAPI,
external to the source) sends its default 200 for a handler that returns a
plain mapping; the spec states the route "returns status 200 ... regardless
of upstream provider reachability". -/
def health_route : Nat × HealthResponse :=
  (200, health_check)

/-- C8: every invocation of `GET /health` answers 200 with the fixed body —
status `ok`, service `tanstack-ai-fastapi-openai` — independent of the
upstream provider, the request, or any prior request: the handler is a
closed constant. -/
theorem health_route_static :
    health_route = (200, { status := "ok", service := "tanstack-ai-fastapi-openai" }) :=
  rfl

end OpenAIServer
